import Mathlib

/-!
# GPUMounter: the AddGPU / RemoveGPU request handlers

A shallow embedding of `pkg/server/gpu-mount/server.go`.

The two handlers are sequences of blocking calls into collaborators that live
outside this file of the repository (cluster client, allocator, mount and
unmount executors, occupancy checker).  Each collaborator is a field of `Env`:
a function on an explicit world state `W` that returns its Go result together
with the next world.  The handlers thread the world through the calls in
program order and return, next to the Go return values, the list of
collaborator calls they made, in order.

A Go `error` is modelled by the text its `Error()` method returns; `nil` is
`none`.
-/

namespace GPUMounter

/-- A Go `error`, identified with the text of `Error()`. -/
abbrev Error := String

/-- The target pod, `*corev1.Pod`; only `Name` and `Namespace` are read. -/
structure Pod where
  Name : String
  Namespace : String
  deriving DecidableEq, Repr

/-- One GPU unit: `UUID`, device file, the placeholder (slave) pod that
reserved it, and that pod's namespace. -/
structure GPUResource where
  UUID : String
  DeviceFilePath : String
  PodName : String
  Namespace : String
  deriving DecidableEq, Repr

/-- Modelled from the spec: the mount mode of a pod, the result type of
`GetMountType`, whose declaration is not part of this file. -/
inductive MountType where
  | Unmounted
  | ExclusiveWhole
  | Shared
  deriving DecidableEq, Repr

/-- Modelled from the spec: the process information returned by the occupancy
checker (`GetPodGPUProcesses`); the handler only tests it against `nil`. -/
abbrev ProcessInfo := List Nat

/-- The message `gpu_mount.AddGPURequest`. `GpuNum` is an `int32` that the
handler widens with `int(...)`, which keeps its value. -/
structure AddGPURequest where
  PodName : String
  Namespace : String
  GpuNum : Int
  IsEntireMount : Bool
  deriving DecidableEq, Repr

/-- The message `gpu_mount.RemoveGPURequest`. -/
structure RemoveGPURequest where
  PodName : String
  Namespace : String
  Uuids : List String
  Force : Bool
  deriving DecidableEq, Repr

/-- Result codes of `AddGPUResponse`. -/
inductive AddGPUResult where
  | Success
  | InsufficientGPU
  | PodNotFound
  deriving DecidableEq, Repr

/-- Result codes of `RemoveGPUResponse`. -/
inductive RemoveGPUResult where
  | Success
  | PodNotFound
  | GPUNotFound
  | GPUBusy
  deriving DecidableEq, Repr

/-- Outcome of `clientset.CoreV1().Pods(ns).Get(...)`: the pod, or an error for
which `k8s_error.IsNotFound` holds, or any other error. -/
inductive PodLookup where
  | found (pod : Pod)
  | notFound (err : Error)
  | failed (err : Error)
  deriving DecidableEq, Repr

/-- A call made by a handler to one of its collaborators. -/
inductive Event where
  | getClientSet
  | getPod (ns name : String)
  | getMountType (pod : Pod)
  | getAvailableGPU (pod : Pod) (totalCount perPodCount : Int)
  | mountGPU (pod : Pod) (gpu : GPUResource)
  | deletePod (ns name : String)
  | getRemoveGPU (pod : Pod) (uuids : List String)
  | getPodGPUProcesses (pod : Pod) (gpu : GPUResource)
  | unmountGPU (pod : Pod) (gpu : GPUResource) (force : Bool)
  | deleteSlavePods (names : List String)
  deriving DecidableEq, Repr

/-- The collaborators and constants that `server.go` uses but does not define.
`W` is the state of everything outside the handler. -/
structure Env (W : Type) where
  /-- the constant `gpu.InsufficientGPU` -/
  InsufficientGPU : String
  /-- the constant `gpu.FailedCreated` -/
  FailedCreated : String
  /-- the value of `string(gpu_mount.RemoveGPUResponse_GPUBusy)` -/
  GPUBusyText : String
  /-- the value of `os.Getenv("GPU_POOL_NAMESPACE")` -/
  GPU_POOL_NAMESPACE : String
  /-- The call `config.GetClientSet()`; `some e` is a failure -/
  GetClientSet : W → Option Error × W
  /-- The call `clientset.CoreV1().Pods(ns).Get(ctx, name, opts)` -/
  GetPod : String → String → W → PodLookup × W
  /-- The call `gpuMountImpl.GetMountType(pod)` -/
  GetMountType : Pod → W → MountType × W
  /-- The call `util.CanMount(mountType, request)` -/
  CanMount : MountType → AddGPURequest → Bool
  /-- The call `gpuMountImpl.GetAvailableGPU(pod, totalCount, perPodCount)` -/
  GetAvailableGPU : Pod → Int → Int → W → Except Error (List GPUResource) × W
  /-- The call `util.MountGPU(pod, gpu)` -/
  MountGPU : Pod → GPUResource → W → Option Error × W
  /-- The call `clientset.CoreV1().Pods(ns).Delete(ctx, name, opts)` -/
  DeletePod : String → String → W → Option Error × W
  /-- The call `gpuMountImpl.GetRemoveGPU(pod, uuids)` -/
  GetRemoveGPU : Pod → List String → W → Except Error (List GPUResource) × W
  /-- The call `util.GetPodGPUProcesses(pod, gpu)`; `none` is the `nil` result -/
  GetPodGPUProcesses : Pod → GPUResource → W → Except Error (Option ProcessInfo) × W
  /-- The call `util.UnmountGPU(pod, gpu, force)` -/
  UnmountGPU : Pod → GPUResource → Bool → W → Option Error × W
  /-- The call `gpuMountImpl.DeleteSlavePods(names)` -/
  DeleteSlavePods : List String → W → Option Error × W

/-- What a handler hands back: the Go pair `(response, error)`, the calls it
made to collaborators in program order, and the world it leaves. -/
structure Outcome (R W : Type) where
  resp : Option R
  err : Option Error
  trace : List Event
  world : W

/-- The error built by `errors.New("Service Internal Error ")`. -/
def serviceInternalError : Error := "Service Internal Error "

/-- The inner loop of `AddGPU` (lines 87-92): delete the placeholder pod of
every resource of the batch; a failed delete is logged and the loop goes on. -/
def releaseLoop {W : Type} (env : Env W) : List GPUResource → W → List Event × W
  | [], w => ([], w)
  | freeGPU :: rest, w =>
    let r := env.DeletePod env.GPU_POOL_NAMESPACE freeGPU.PodName w
    let t := releaseLoop env rest r.2
    (Event.deletePod env.GPU_POOL_NAMESPACE freeGPU.PodName :: t.1, t.2)

/-- The mount loop of `AddGPU` (lines 81-96) over the resources still to be
mounted; `gpuResources` is the whole batch. The first component is `true` when
the loop left the function through the `return` of line 93. -/
def mountLoop {W : Type} (env : Env W) (targetPod : Pod) (gpuResources : List GPUResource) :
    List GPUResource → W → Bool × List Event × W
  | [], w => (false, [], w)
  | targetGPU :: rest, w =>
    match env.MountGPU targetPod targetGPU w with
    | (some _, w1) =>
      let t := releaseLoop env gpuResources w1
      (true, Event.mountGPU targetPod targetGPU :: t.1, t.2)
    | (none, w1) =>
      let t := mountLoop env targetPod gpuResources rest w1
      (t.1, Event.mountGPU targetPod targetGPU :: t.2.1, t.2.2)

/-- The handler `GPUMountImpl.AddGPU`. -/
def AddGPU {W : Type} (env : Env W) (request : AddGPURequest) (w0 : W) :
    Outcome AddGPUResult W :=
  match env.GetClientSet w0 with
  | (some _, w1) => ⟨none, some serviceInternalError, [Event.getClientSet], w1⟩
  | (none, w1) =>
    let tr1 := [Event.getClientSet, Event.getPod request.Namespace request.PodName]
    match env.GetPod request.Namespace request.PodName w1 with
    | (PodLookup.notFound _, w2) => ⟨some AddGPUResult.PodNotFound, none, tr1, w2⟩
    | (PodLookup.failed _, w2) => ⟨none, some serviceInternalError, tr1, w2⟩
    | (PodLookup.found targetPod, w2) =>
      let m := env.GetMountType targetPod w2
      let tr2 := tr1 ++ [Event.getMountType targetPod]
      if !env.CanMount m.1 request then
        ⟨none, some env.FailedCreated, tr2, m.2⟩
      else
        let gpuNum := request.GpuNum
        let gpuNumPerPod := if request.IsEntireMount then gpuNum else 1
        let tr3 := tr2 ++ [Event.getAvailableGPU targetPod gpuNum gpuNumPerPod]
        match env.GetAvailableGPU targetPod gpuNum gpuNumPerPod m.2 with
        | (Except.error e, w4) =>
          if e = env.InsufficientGPU then
            ⟨some AddGPUResult.InsufficientGPU, none, tr3, w4⟩
          else if e = env.FailedCreated then
            ⟨none, some serviceInternalError, tr3, w4⟩
          else
            ⟨none, some serviceInternalError, tr3, w4⟩
        | (Except.ok gpuResources, w4) =>
          let t := mountLoop env targetPod gpuResources gpuResources w4
          if t.1 then
            ⟨none, some serviceInternalError, tr3 ++ t.2.1, t.2.2⟩
          else
            ⟨some AddGPUResult.Success, none, tr3 ++ t.2.1, t.2.2⟩

/-- How one of the loops of `RemoveGPU` ends: it runs to its end, or it leaves
the handler with a response, or with an error. -/
inductive LoopExit where
  | done
  | respond (r : RemoveGPUResult)
  | fail (e : Error)
  deriving DecidableEq, Repr

/-- The occupancy loop of `RemoveGPU` (lines 140-154). The second argument is
`slavePodNames` as accumulated so far. -/
def checkLoop {W : Type} (env : Env W) (targetPod : Pod) (force : Bool) :
    List GPUResource → List String → W → LoopExit × List String × List Event × W
  | [], slavePodNames, w => (LoopExit.done, slavePodNames, [], w)
  | removeGPU :: rest, slavePodNames, w =>
    let names := slavePodNames ++ [removeGPU.PodName]
    let ev := Event.getPodGPUProcesses targetPod removeGPU
    match env.GetPodGPUProcesses targetPod removeGPU w with
    | (Except.error e, w1) => (LoopExit.fail e, names, [ev], w1)
    | (Except.ok gpuProc, w1) =>
      if gpuProc.isSome && !force then
        (LoopExit.respond RemoveGPUResult.GPUBusy, names, [ev], w1)
      else
        let t := checkLoop env targetPod force rest names w1
        (t.1, t.2.1, ev :: t.2.2.1, t.2.2.2)

/-- The unmount loop of `RemoveGPU` (lines 156-169). -/
def unmountLoop {W : Type} (env : Env W) (targetPod : Pod) (force : Bool) :
    List GPUResource → W → LoopExit × List Event × W
  | [], w => (LoopExit.done, [], w)
  | removeGPU :: rest, w =>
    let ev := Event.unmountGPU targetPod removeGPU force
    match env.UnmountGPU targetPod removeGPU force w with
    | (some e, w1) =>
      if e = env.GPUBusyText then
        (LoopExit.respond RemoveGPUResult.GPUBusy, [ev], w1)
      else
        (LoopExit.fail e, [ev], w1)
    | (none, w1) =>
      let t := unmountLoop env targetPod force rest w1
      (t.1, ev :: t.2.1, t.2.2)

/-- The handler `GPUMountImpl.RemoveGPU`. -/
def RemoveGPU {W : Type} (env : Env W) (request : RemoveGPURequest) (w0 : W) :
    Outcome RemoveGPUResult W :=
  match env.GetClientSet w0 with
  | (some _, w1) => ⟨none, some serviceInternalError, [Event.getClientSet], w1⟩
  | (none, w1) =>
    let tr1 := [Event.getClientSet, Event.getPod request.Namespace request.PodName]
    match env.GetPod request.Namespace request.PodName w1 with
    | (PodLookup.notFound _, w2) => ⟨some RemoveGPUResult.PodNotFound, none, tr1, w2⟩
    | (PodLookup.failed _, w2) => ⟨none, some serviceInternalError, tr1, w2⟩
    | (PodLookup.found targetPod, w2) =>
      let tr2 := tr1 ++ [Event.getRemoveGPU targetPod request.Uuids]
      match env.GetRemoveGPU targetPod request.Uuids w2 with
      | (Except.error e, w3) => ⟨none, some e, tr2, w3⟩
      | (Except.ok removeGPUs, w3) =>
        if removeGPUs.length = 0 then
          ⟨some RemoveGPUResult.GPUNotFound, none, tr2, w3⟩
        else
          let c := checkLoop env targetPod request.Force removeGPUs [] w3
          match c.1 with
          | LoopExit.fail e => ⟨none, some e, tr2 ++ c.2.2.1, c.2.2.2⟩
          | LoopExit.respond r => ⟨some r, none, tr2 ++ c.2.2.1, c.2.2.2⟩
          | LoopExit.done =>
            let slavePodNames := c.2.1
            let tr3 := tr2 ++ c.2.2.1
            let u := unmountLoop env targetPod request.Force removeGPUs c.2.2.2
            match u.1 with
            | LoopExit.fail e => ⟨none, some e, tr3 ++ u.2.1, u.2.2⟩
            | LoopExit.respond r => ⟨some r, none, tr3 ++ u.2.1, u.2.2⟩
            | LoopExit.done =>
              let tr4 := tr3 ++ u.2.1 ++ [Event.deleteSlavePods slavePodNames]
              match env.DeleteSlavePods slavePodNames u.2.2 with
              | (some e, w6) => ⟨none, some e, tr4, w6⟩
              | (none, w6) => ⟨some RemoveGPUResult.Success, none, tr4, w6⟩

/-! ## Kinds of calls -/

/-- The call is a reservation, `GetAvailableGPU`. -/
def Event.isAlloc : Event → Bool
  | Event.getAvailableGPU _ _ _ => true
  | _ => false

/-- The call is a mount, `MountGPU`. -/
def Event.isMount : Event → Bool
  | Event.mountGPU _ _ => true
  | _ => false

/-- The call is an unmount, `UnmountGPU`. -/
def Event.isUnmount : Event → Bool
  | Event.unmountGPU _ _ _ => true
  | _ => false

/-- The call deletes placeholder pods: the client `Delete` or `DeleteSlavePods`. -/
def Event.isRelease : Event → Bool
  | Event.deletePod _ _ => true
  | Event.deleteSlavePods _ => true
  | _ => false

/-! ## Specification-side descriptions of collaborator behaviour

These functions describe what the collaborators do on a list of resources when
they are called one after the other; they are used to state the hypotheses of
the theorems below. -/

/-- The world after `MountGPU` has been called on each resource of the list in
order, when every one of these calls succeeds; `none` when one of them fails. -/
def mountsOk {W : Type} (env : Env W) (pod : Pod) : List GPUResource → W → Option W
  | [], w => some w
  | g :: rest, w =>
    match env.MountGPU pod g w with
    | (none, w1) => mountsOk env pod rest w1
    | (some _, _) => none

/-- The world after `Delete` has been called on the placeholder of each
resource of the list in order, whatever these calls answer. -/
def deletesWorld {W : Type} (env : Env W) : List GPUResource → W → W
  | [], w => w
  | g :: rest, w => deletesWorld env rest (env.DeletePod env.GPU_POOL_NAMESPACE g.PodName w).2

/-- The world after the occupancy checker has been called on each resource of
the list in order, when none of these calls reports an error. -/
def checksNoError {W : Type} (env : Env W) (pod : Pod) : List GPUResource → W → Option W
  | [], w => some w
  | g :: rest, w =>
    match env.GetPodGPUProcesses pod g w with
    | (Except.ok _, w1) => checksNoError env pod rest w1
    | (Except.error _, _) => none

/-- The world after the occupancy checker has been called on each resource of
the list in order, when every call passes the pre-check: no error, and no
holding process unless `force` is set. -/
def checksPass {W : Type} (env : Env W) (pod : Pod) (force : Bool) :
    List GPUResource → W → Option W
  | [], w => some w
  | g :: rest, w =>
    match env.GetPodGPUProcesses pod g w with
    | (Except.ok p, w1) => if p.isSome && !force then none else checksPass env pod force rest w1
    | (Except.error _, _) => none

/-- The world after `UnmountGPU` has been called on each resource of the list
in order, when every one of these calls succeeds. -/
def unmountsOk {W : Type} (env : Env W) (pod : Pod) (force : Bool) :
    List GPUResource → W → Option W
  | [], w => some w
  | g :: rest, w =>
    match env.UnmountGPU pod g force w with
    | (none, w1) => unmountsOk env pod force rest w1
    | (some _, _) => none

/-- The conditions under which AddGPU is expected to succeed: the client set is
obtained, the pod `pod` is found, the request is compatible with the pod's mount
type, the allocator returns the resources `rs`, and the mount of every one of
them, in order, succeeds, leaving the world `w5`. -/
def AddSucceeds {W : Type} (env : Env W) (request : AddGPURequest) (w0 : W)
    (pod : Pod) (rs : List GPUResource) (w5 : W) : Prop :=
  ∃ w1 w2 w4,
    env.GetClientSet w0 = (none, w1) ∧
    env.GetPod request.Namespace request.PodName w1 = (PodLookup.found pod, w2) ∧
    env.CanMount (env.GetMountType pod w2).1 request = true ∧
    env.GetAvailableGPU pod request.GpuNum
      (if request.IsEntireMount then request.GpuNum else 1) (env.GetMountType pod w2).2
      = (Except.ok rs, w4) ∧
    mountsOk env pod rs w4 = some w5

/-- The placeholder-delete call for a resource. -/
def deleteEvent {W : Type} (env : Env W) (g : GPUResource) : Event :=
  Event.deletePod env.GPU_POOL_NAMESPACE g.PodName

/-! ## A concrete cluster

A small executable cluster on which the handlers are run: the state records
which devices are bound into the target pod and which placeholder pods are
alive; a fixture says which pods exist, what the allocator can hand out and
which operations fail. -/

/-- State of the concrete cluster. -/
structure Cluster where
  /-- devices bound into the target pod, in mount order -/
  mounted : List GPUResource
  /-- names of the placeholder pods alive in the pool namespace -/
  placeholders : List String
  deriving DecidableEq, Repr

/-- The fixed part of a concrete cluster. -/
structure Fixture where
  /-- the failure of `GetClientSet`, if any -/
  connectError : Option Error
  /-- the failure of the pod lookup other than not-found, if any -/
  lookupError : Option Error
  /-- the pods that exist -/
  pods : List Pod
  /-- the established mount type of the target pod -/
  mode : MountType
  /-- the failure of the allocator other than a shortfall, if any -/
  allocError : Option Error
  /-- the devices the allocator hands out, in order -/
  free : List GPUResource
  /-- UUIDs whose device node is missing: mounting them fails -/
  broken : List String
  /-- placeholder names whose deletion through the client fails -/
  undeletable : List String
  /-- the failure of UUID resolution, if any -/
  resolveError : Option Error
  /-- UUIDs held open by a process of the target pod -/
  busy : List String
  /-- UUIDs that turn busy between the occupancy check and the unmount -/
  racing : List String
  /-- UUIDs whose unmount fails for another reason -/
  stuck : List String
  /-- the failure of `DeleteSlavePods`, if any -/
  deleteError : Option Error

/-- The collaborators of the concrete cluster. A successful `MountGPU` extends
the mounted devices of the pod, a successful `UnmountGPU` removes the device,
the allocator creates placeholders and the delete calls remove them. The text
constants are spelled like their names. -/
def fixtureEnv (f : Fixture) : Env Cluster where
  InsufficientGPU := "InsufficientGPU"
  FailedCreated := "FailedCreated"
  GPUBusyText := "GPUBusy"
  GPU_POOL_NAMESPACE := "gpu-pool"
  GetClientSet := fun w => (f.connectError, w)
  GetPod := fun ns name w =>
    match f.lookupError with
    | some e => (PodLookup.failed e, w)
    | none =>
      if f.pods.contains ⟨name, ns⟩ then (PodLookup.found ⟨name, ns⟩, w)
      else (PodLookup.notFound "pods not found", w)
  GetMountType := fun _ w => (f.mode, w)
  CanMount := fun m r =>
    match m with
    | MountType.Unmounted => true
    | MountType.ExclusiveWhole => r.IsEntireMount
    | MountType.Shared => !r.IsEntireMount
  GetAvailableGPU := fun _ total _ w =>
    match f.allocError with
    | some e => (Except.error e, w)
    | none =>
      if total.toNat ≤ f.free.length then
        (Except.ok (f.free.take total.toNat),
          ⟨w.mounted, w.placeholders ++ (f.free.take total.toNat).map (fun r => r.PodName)⟩)
      else (Except.error "InsufficientGPU", w)
  MountGPU := fun _ g w =>
    if f.broken.contains g.UUID then (some "device node missing", w)
    else (none, ⟨w.mounted ++ [g], w.placeholders⟩)
  DeletePod := fun _ name w =>
    if f.undeletable.contains name then (some "delete refused", w)
    else (none, ⟨w.mounted, w.placeholders.filter (fun n => n != name)⟩)
  GetRemoveGPU := fun _ uuids w =>
    match f.resolveError with
    | some e => (Except.error e, w)
    | none => (Except.ok (w.mounted.filter (fun g => uuids.contains g.UUID)), w)
  GetPodGPUProcesses := fun _ g w =>
    if f.busy.contains g.UUID then (Except.ok (some [4242]), w) else (Except.ok none, w)
  UnmountGPU := fun _ g force w =>
    if f.racing.contains g.UUID && !force then (some "GPUBusy", w)
    else if f.stuck.contains g.UUID then (some "umount: target is busy", w)
    else (none, ⟨w.mounted.filter (fun m => m != g), w.placeholders⟩)
  DeleteSlavePods := fun names w =>
    match f.deleteError with
    | some e => (some e, w)
    | none => (none, ⟨w.mounted, w.placeholders.filter (fun n => !names.contains n)⟩)

/-- The pod `p1` of namespace `ns1`. -/
def podP1 : Pod := ⟨"p1", "ns1"⟩

/-- The device `gpu-a`, reserved by the placeholder `slave-a`. -/
def gpuA : GPUResource := ⟨"gpu-a", "/dev/nvidia0", "slave-a", "gpu-pool"⟩

/-- The device `gpu-b`, reserved by the placeholder `slave-b`. -/
def gpuB : GPUResource := ⟨"gpu-b", "/dev/nvidia1", "slave-b", "gpu-pool"⟩

/-- The device `gpu-c`, reserved by the placeholder `slave-c`. -/
def gpuC : GPUResource := ⟨"gpu-c", "/dev/nvidia2", "slave-c", "gpu-pool"⟩

/-- A healthy cluster: `p1` exists and is unmounted, three devices are free,
nothing fails. -/
def healthy : Fixture where
  connectError := none
  lookupError := none
  pods := [podP1]
  mode := MountType.Unmounted
  allocError := none
  free := [gpuA, gpuB, gpuC]
  broken := []
  undeletable := []
  resolveError := none
  busy := []
  racing := []
  stuck := []
  deleteError := none

/-- The cluster before any request: nothing mounted, no placeholder. -/
def emptyCluster : Cluster := ⟨[], []⟩

/-- The cluster once `gpu-a`, `gpu-b` and `gpu-c` are mounted into `p1`. -/
def fullCluster : Cluster := ⟨[gpuA, gpuB, gpuC], ["slave-a", "slave-b", "slave-c"]⟩

/-- The healthy cluster, except that the device node of `gpu-b` is missing and
the placeholder `slave-a` cannot be deleted. -/
def brokenB : Fixture :=
  { healthy with broken := ["gpu-b"], undeletable := ["slave-a"] }

/-- The healthy cluster, except that the device node of `gpu-b` is missing. -/
def missingNodeB : Fixture :=
  { healthy with broken := ["gpu-b"] }

/-- The healthy cluster, except that `p1` already holds an entire-device mount. -/
def wholeMode : Fixture :=
  { healthy with mode := MountType.ExclusiveWhole }

/-- The healthy cluster, except that placeholder creation fails. -/
def allocFails : Fixture :=
  { healthy with allocError := some "FailedCreated" }

/-- The healthy cluster, except that a process of `p1` holds `gpu-b`. -/
def busyB : Fixture :=
  { healthy with busy := ["gpu-b"] }

/-- The healthy cluster, except that `gpu-b` turns busy after the occupancy check. -/
def racingB : Fixture :=
  { healthy with racing := ["gpu-b"] }

/-- The healthy cluster, except that the unmount of `gpu-b` fails. -/
def stuckB : Fixture :=
  { healthy with stuck := ["gpu-b"] }

/-- The healthy cluster, except that `DeleteSlavePods` fails. -/
def deleteFails : Fixture :=
  { healthy with deleteError := some "pods slave-a is forbidden" }

/-- The healthy cluster, except that UUID resolution fails with the text `t`. -/
def resolveFails (t : Error) : Fixture :=
  { healthy with resolveError := some t }

/-- The healthy cluster, except that the cluster client cannot be built. -/
def noConnection : Fixture :=
  { healthy with connectError := some "unable to load in-cluster configuration" }

/-- The healthy cluster, except that the pod lookup fails. -/
def lookupFails : Fixture :=
  { healthy with lookupError := some "etcdserver: request timed out" }

/-- The cluster of `fullCluster` once `gpu-a` is unmounted from `p1`. -/
def afterUnmountA : Cluster := ⟨[gpuB, gpuC], ["slave-a", "slave-b", "slave-c"]⟩

/-- The cluster once the placeholders of two devices exist. -/
def twoReserved : Cluster := ⟨[], ["slave-a", "slave-b"]⟩

/-- A request for five shared devices on `p1`. -/
def addFive : AddGPURequest := ⟨"p1", "ns1", 5, false⟩

/-- A request for three shared devices on `p1`. -/
def addThree : AddGPURequest := ⟨"p1", "ns1", 3, false⟩

/-- A request for two shared devices on `p1`: `gpuNum = 2`, `isEntireMount = false`. -/
def addTwo : AddGPURequest := ⟨"p1", "ns1", 2, false⟩

/-- A request for two devices on `p1` as an entire mount. -/
def addTwoEntire : AddGPURequest := ⟨"p1", "ns1", 2, true⟩

/-- A request to remove `gpu-a`, `gpu-b` and `gpu-c` from `p1` without force. -/
def removeAll : RemoveGPURequest := ⟨"p1", "ns1", ["gpu-a", "gpu-b", "gpu-c"], false⟩

/-- A request to remove `gpu-a` from `p1` without force. -/
def removeA : RemoveGPURequest := ⟨"p1", "ns1", ["gpu-a"], false⟩

/-! ## Lemmas on the loops -/

theorem deleteEvent_eq {W : Type} (env : Env W) :
    deleteEvent env = fun r => Event.deletePod env.GPU_POOL_NAMESPACE r.PodName := rfl

theorem releaseLoop_trace {W : Type} (env : Env W) (gs : List GPUResource) (w : W) :
    (releaseLoop env gs w).1 = gs.map (deleteEvent env) := by
  induction gs generalizing w with
  | nil => rfl
  | cons g rest ih => simp [releaseLoop, ih, deleteEvent]

theorem releaseLoop_world {W : Type} (env : Env W) (gs : List GPUResource) (w : W) :
    (releaseLoop env gs w).2 = deletesWorld env gs w := by
  induction gs generalizing w with
  | nil => rfl
  | cons g rest ih => simp [releaseLoop, deletesWorld, ih]

theorem mountLoop_ok {W : Type} (env : Env W) (pod : Pod) (all gs : List GPUResource)
    (w w5 : W) (h : mountsOk env pod gs w = some w5) :
    mountLoop env pod all gs w = (false, gs.map (Event.mountGPU pod), w5) := by
  induction gs generalizing w with
  | nil => simp [mountsOk] at h; simp [mountLoop, h]
  | cons g rest ih =>
    rcases hm : env.MountGPU pod g w with ⟨_ | e, w1⟩
    · simp [mountsOk, hm] at h
      simp [mountLoop, hm, ih w1 h]
    · simp [mountsOk, hm] at h

theorem mountLoop_fail {W : Type} (env : Env W) (pod : Pod)
    (all pre post : List GPUResource) (g : GPUResource) (e : Error) (w w5 w6 : W)
    (hpre : mountsOk env pod pre w = some w5)
    (hfail : env.MountGPU pod g w5 = (some e, w6)) :
    mountLoop env pod all (pre ++ g :: post) w =
      (true, (pre ++ [g]).map (Event.mountGPU pod) ++ all.map (deleteEvent env),
        deletesWorld env all w6) := by
  induction pre generalizing w with
  | nil =>
    simp [mountsOk] at hpre
    subst hpre
    simp [mountLoop, hfail, releaseLoop_trace, releaseLoop_world]
  | cons a rest ih =>
    rcases hm : env.MountGPU pod a w with ⟨_ | e1, w1⟩
    · simp [mountsOk, hm] at hpre
      simp [mountLoop, hm, ih w1 hpre]
    · simp [mountsOk, hm] at hpre

theorem mountLoop_not_failed {W : Type} (env : Env W) (pod : Pod) (all gs : List GPUResource)
    (w : W) (h : (mountLoop env pod all gs w).1 = false) :
    ∃ w5, mountsOk env pod gs w = some w5 := by
  induction gs generalizing w with
  | nil => exact ⟨w, rfl⟩
  | cons g rest ih =>
    rcases hm : env.MountGPU pod g w with ⟨_ | e, w1⟩
    · simp [mountLoop, hm] at h
      simpa [mountsOk, hm] using ih w1 h
    · simp [mountLoop, hm] at h

theorem mountLoop_failed {W : Type} (env : Env W) (pod : Pod) (all gs : List GPUResource)
    (w : W) (h : mountsOk env pod gs w = none) :
    (mountLoop env pod all gs w).1 = true := by
  cases hb : (mountLoop env pod all gs w).1
  · obtain ⟨w5, h5⟩ := mountLoop_not_failed env pod all gs w hb
    rw [h] at h5
    exact absurd h5 (by simp)
  · rfl

/-! ## AddGPU -/

/-- C1: when the allocation returned `pre ++ g :: post` and the mount of `g` is
the first to fail, AddGPU has called the mount executor on `pre` and `g` only,
then has issued a placeholder delete for every resource of the batch in list
order, and returns the generic internal error with no response; nothing is
assumed about what the delete calls answer. -/
theorem AddGPU_rollback_on_mount_failure {W : Type} (env : Env W) (request : AddGPURequest)
    (w0 w1 w2 w4 w5 w6 : W) (pod : Pod) (pre post : List GPUResource) (g : GPUResource)
    (e : Error)
    (hcs : env.GetClientSet w0 = (none, w1))
    (hpod : env.GetPod request.Namespace request.PodName w1 = (PodLookup.found pod, w2))
    (hcan : env.CanMount (env.GetMountType pod w2).1 request = true)
    (halloc : env.GetAvailableGPU pod request.GpuNum
        (if request.IsEntireMount then request.GpuNum else 1) (env.GetMountType pod w2).2
        = (Except.ok (pre ++ g :: post), w4))
    (hpre : mountsOk env pod pre w4 = some w5)
    (hfail : env.MountGPU pod g w5 = (some e, w6)) :
    (AddGPU env request w0).resp = none ∧
    (AddGPU env request w0).err = some serviceInternalError ∧
    (AddGPU env request w0).trace =
      [Event.getClientSet, Event.getPod request.Namespace request.PodName,
        Event.getMountType pod,
        Event.getAvailableGPU pod request.GpuNum
          (if request.IsEntireMount then request.GpuNum else 1)]
      ++ (pre ++ [g]).map (Event.mountGPU pod)
      ++ (pre ++ g :: post).map (fun r => Event.deletePod env.GPU_POOL_NAMESPACE r.PodName) ∧
    (AddGPU env request w0).world = deletesWorld env (pre ++ g :: post) w6 := by
  have hl := mountLoop_fail env pod (pre ++ g :: post) pre post g e w4 w5 w6 hpre hfail
  simp only [AddGPU, hcs, hpod, hcan, halloc, hl]
  simp [deleteEvent_eq]

theorem mountLoop_trace_kinds {W : Type} (env : Env W) (pod : Pod) (all gs : List GPUResource)
    (w : W) : ∀ ev ∈ (mountLoop env pod all gs w).2.1, ev.isMount = true ∨ ev.isRelease = true := by
  induction gs generalizing w with
  | nil => simp [mountLoop]
  | cons g rest ih =>
    rcases hm : env.MountGPU pod g w with ⟨_ | e, w1⟩
    · intro ev hev
      simp only [mountLoop, hm, List.mem_cons] at hev
      rcases hev with rfl | hev
      · exact Or.inl rfl
      · exact ih w1 ev hev
    · intro ev hev
      simp only [mountLoop, hm, List.mem_cons, releaseLoop_trace, List.mem_map] at hev
      rcases hev with rfl | ⟨r, _, rfl⟩
      · exact Or.inl rfl
      · exact Or.inr rfl

theorem mountLoop_no_alloc {W : Type} (env : Env W) (pod : Pod) (all gs : List GPUResource)
    (w : W) : (mountLoop env pod all gs w).2.1.filter Event.isAlloc = [] := by
  rw [List.filter_eq_nil_iff]
  intro ev hev
  rcases mountLoop_trace_kinds env pod all gs w ev hev with h | h <;>
    cases ev <;> simp_all [Event.isMount, Event.isRelease, Event.isAlloc]

/-- C6: on a found pod for which `CanMount` answers false, AddGPU returns an
error (the `FailedCreated` one) and no response, and its only calls are the
client set, the pod lookup and the mount-type query: no reservation, no mount
and no placeholder delete. -/
theorem AddGPU_incompatible_rejected {W : Type} (env : Env W) (request : AddGPURequest)
    (w0 w1 w2 : W) (pod : Pod)
    (hcs : env.GetClientSet w0 = (none, w1))
    (hpod : env.GetPod request.Namespace request.PodName w1 = (PodLookup.found pod, w2))
    (hcan : env.CanMount (env.GetMountType pod w2).1 request = false) :
    (AddGPU env request w0).resp = none ∧
    (AddGPU env request w0).err = some env.FailedCreated ∧
    (AddGPU env request w0).trace =
      [Event.getClientSet, Event.getPod request.Namespace request.PodName,
        Event.getMountType pod] ∧
    (AddGPU env request w0).trace.filter Event.isAlloc = [] ∧
    (AddGPU env request w0).trace.filter Event.isMount = [] ∧
    (AddGPU env request w0).trace.filter Event.isRelease = [] := by
  simp [AddGPU, hcs, hpod, hcan, Event.isAlloc, Event.isMount, Event.isRelease]

/-- C7: after pod lookup and the compatibility check, an allocator failure
whose text is `InsufficientGPU` gives the response `InsufficientGPU` with a nil
error, any other allocator failure gives the generic internal error with no
response; in both cases the allocator call is the last call: nothing is
mounted and no placeholder is deleted. -/
theorem AddGPU_allocator_failure {W : Type} (env : Env W) (request : AddGPURequest)
    (w0 w1 w2 w4 : W) (pod : Pod) (e : Error)
    (hcs : env.GetClientSet w0 = (none, w1))
    (hpod : env.GetPod request.Namespace request.PodName w1 = (PodLookup.found pod, w2))
    (hcan : env.CanMount (env.GetMountType pod w2).1 request = true)
    (halloc : env.GetAvailableGPU pod request.GpuNum
        (if request.IsEntireMount then request.GpuNum else 1) (env.GetMountType pod w2).2
        = (Except.error e, w4)) :
    (e = env.InsufficientGPU →
      (AddGPU env request w0).resp = some AddGPUResult.InsufficientGPU ∧
      (AddGPU env request w0).err = none) ∧
    (e ≠ env.InsufficientGPU →
      (AddGPU env request w0).resp = none ∧
      (AddGPU env request w0).err = some serviceInternalError) ∧
    (AddGPU env request w0).trace =
      [Event.getClientSet, Event.getPod request.Namespace request.PodName,
        Event.getMountType pod,
        Event.getAvailableGPU pod request.GpuNum
          (if request.IsEntireMount then request.GpuNum else 1)] ∧
    (AddGPU env request w0).trace.filter Event.isMount = [] ∧
    (AddGPU env request w0).trace.filter Event.isRelease = [] := by
  by_cases he : e = env.InsufficientGPU
  · simp [AddGPU, hcs, hpod, hcan, halloc, he, Event.isMount, Event.isRelease]
  · by_cases hf : e = env.FailedCreated
    · subst hf
      simp [AddGPU, hcs, hpod, hcan, halloc, he, Event.isMount, Event.isRelease]
    · simp [AddGPU, hcs, hpod, hcan, halloc, he, hf, Event.isMount, Event.isRelease]

/-- C10: an AddGPU request that reaches the allocator calls `GetAvailableGPU`
exactly once, with `totalCount` the request's `gpuNum` and with
`perPlaceholderCount` equal to `gpuNum` for an entire mount and to 1 otherwise,
in the world left by the mount-type query, and goes on with what that call
answers. If it answers an error, the handler stops in the world the call left,
with the result the error text decides. If it answers the resources `rs`, the
handler mounts exactly these: when all mounts succeed it answers `Success` in
the world after them; when the mount of `g` is the first to fail it has mounted
the resources before `g`, deletes the placeholders of all of `rs` and returns
the generic error. -/
theorem AddGPU_allocator_call {W : Type} (env : Env W) (request : AddGPURequest)
    (w0 w1 w2 : W) (pod : Pod)
    (hcs : env.GetClientSet w0 = (none, w1))
    (hpod : env.GetPod request.Namespace request.PodName w1 = (PodLookup.found pod, w2))
    (hcan : env.CanMount (env.GetMountType pod w2).1 request = true) :
    (AddGPU env request w0).trace.filter Event.isAlloc =
      [Event.getAvailableGPU pod request.GpuNum
        (if request.IsEntireMount then request.GpuNum else 1)] ∧
    (∀ (e : Error) (w4 : W),
      env.GetAvailableGPU pod request.GpuNum
        (if request.IsEntireMount then request.GpuNum else 1) (env.GetMountType pod w2).2
        = (Except.error e, w4) →
      (AddGPU env request w0).world = w4 ∧
      (AddGPU env request w0).trace =
        [Event.getClientSet, Event.getPod request.Namespace request.PodName,
          Event.getMountType pod,
          Event.getAvailableGPU pod request.GpuNum
            (if request.IsEntireMount then request.GpuNum else 1)] ∧
      (AddGPU env request w0).resp =
        (if e = env.InsufficientGPU then some AddGPUResult.InsufficientGPU else none) ∧
      (AddGPU env request w0).err =
        (if e = env.InsufficientGPU then none else some serviceInternalError)) ∧
    (∀ (rs : List GPUResource) (w4 w5 : W),
      env.GetAvailableGPU pod request.GpuNum
        (if request.IsEntireMount then request.GpuNum else 1) (env.GetMountType pod w2).2
        = (Except.ok rs, w4) →
      mountsOk env pod rs w4 = some w5 →
      (AddGPU env request w0).world = w5 ∧
      (AddGPU env request w0).trace =
        [Event.getClientSet, Event.getPod request.Namespace request.PodName,
          Event.getMountType pod,
          Event.getAvailableGPU pod request.GpuNum
            (if request.IsEntireMount then request.GpuNum else 1)]
        ++ rs.map (Event.mountGPU pod) ∧
      (AddGPU env request w0).resp = some AddGPUResult.Success ∧
      (AddGPU env request w0).err = none) ∧
    (∀ (pre post : List GPUResource) (g : GPUResource) (e : Error) (w4 w5 w6 : W),
      env.GetAvailableGPU pod request.GpuNum
        (if request.IsEntireMount then request.GpuNum else 1) (env.GetMountType pod w2).2
        = (Except.ok (pre ++ g :: post), w4) →
      mountsOk env pod pre w4 = some w5 →
      env.MountGPU pod g w5 = (some e, w6) →
      (AddGPU env request w0).world = deletesWorld env (pre ++ g :: post) w6 ∧
      (AddGPU env request w0).trace =
        [Event.getClientSet, Event.getPod request.Namespace request.PodName,
          Event.getMountType pod,
          Event.getAvailableGPU pod request.GpuNum
            (if request.IsEntireMount then request.GpuNum else 1)]
        ++ (pre ++ [g]).map (Event.mountGPU pod)
        ++ (pre ++ g :: post).map (deleteEvent env) ∧
      (AddGPU env request w0).resp = none ∧
      (AddGPU env request w0).err = some serviceInternalError) := by
  refine ⟨?_, ?_, ?_, ?_⟩
  · rcases ha : env.GetAvailableGPU pod request.GpuNum
        (if request.IsEntireMount then request.GpuNum else 1) (env.GetMountType pod w2).2
      with ⟨e | rs, w4⟩
    · by_cases he : e = env.InsufficientGPU
      · simp [AddGPU, hcs, hpod, hcan, ha, he, Event.isAlloc]
      · by_cases hf : e = env.FailedCreated
        · subst hf
          simp [AddGPU, hcs, hpod, hcan, ha, he, Event.isAlloc]
        · simp [AddGPU, hcs, hpod, hcan, ha, he, hf, Event.isAlloc]
    · have hn := mountLoop_no_alloc env pod rs rs w4
      cases hb : (mountLoop env pod rs rs w4).1 <;>
        simp [AddGPU, hcs, hpod, hcan, ha, hb, hn, Event.isAlloc, List.filter_append]
  · intro e w4 ha
    by_cases he : e = env.InsufficientGPU
    · simp [AddGPU, hcs, hpod, hcan, ha, he]
    · by_cases hf : e = env.FailedCreated
      · subst hf
        simp [AddGPU, hcs, hpod, hcan, ha, he]
      · simp [AddGPU, hcs, hpod, hcan, ha, he, hf]
  · intro rs w4 w5 ha h5
    simp [AddGPU, hcs, hpod, hcan, ha, mountLoop_ok env pod rs rs w4 w5 h5]
  · intro pre post g e w4 w5 w6 ha hpre hfail
    have hl := mountLoop_fail env pod (pre ++ g :: post) pre post g e w4 w5 w6 hpre hfail
    simp only [AddGPU, hcs, hpod, hcan, ha, hl]
    simp

theorem filter_isMount_mounts (pod : Pod) (rs : List GPUResource) :
    (rs.map (Event.mountGPU pod)).filter Event.isMount = rs.map (Event.mountGPU pod) := by
  rw [List.filter_eq_self]
  intro a ha
  obtain ⟨g, _, rfl⟩ := List.mem_map.1 ha
  rfl

theorem filter_isRelease_mounts (pod : Pod) (rs : List GPUResource) :
    (rs.map (Event.mountGPU pod)).filter Event.isRelease = [] := by
  rw [List.filter_eq_nil_iff]
  intro a ha
  obtain ⟨g, _, rfl⟩ := List.mem_map.1 ha
  simp [Event.isRelease]

/-- C9: AddGPU answers `Success` exactly when the pod is found, the request is
compatible, the allocator succeeds and every mount succeeds; in that case it
returns no error, its mount calls are exactly one per reserved resource in the
order the allocator returned them, and it has deleted no placeholder. -/
theorem AddGPU_success_iff {W : Type} (env : Env W) (request : AddGPURequest) (w0 : W) :
    ((AddGPU env request w0).resp = some AddGPUResult.Success ↔
      ∃ pod rs w5, AddSucceeds env request w0 pod rs w5) ∧
    (∀ pod rs w5, AddSucceeds env request w0 pod rs w5 →
      (AddGPU env request w0).err = none ∧
      (AddGPU env request w0).trace.filter Event.isMount = rs.map (Event.mountGPU pod) ∧
      (AddGPU env request w0).trace.filter Event.isRelease = [] ∧
      (AddGPU env request w0).trace =
        [Event.getClientSet, Event.getPod request.Namespace request.PodName,
          Event.getMountType pod,
          Event.getAvailableGPU pod request.GpuNum
            (if request.IsEntireMount then request.GpuNum else 1)]
        ++ rs.map (Event.mountGPU pod) ∧
      (AddGPU env request w0).world = w5) := by
  refine ⟨⟨?_, ?_⟩, ?_⟩
  · intro h
    rcases hcs : env.GetClientSet w0 with ⟨_ | e, w1⟩
    · rcases hpod : env.GetPod request.Namespace request.PodName w1 with ⟨pod | e | e, w2⟩
      · cases hcan : env.CanMount (env.GetMountType pod w2).1 request
        · simp [AddGPU, hcs, hpod, hcan] at h
        · rcases ha : env.GetAvailableGPU pod request.GpuNum
            (if request.IsEntireMount then request.GpuNum else 1) (env.GetMountType pod w2).2
            with ⟨e | rs, w4⟩
          · by_cases he : e = env.InsufficientGPU
            · simp [AddGPU, hcs, hpod, hcan, ha, he] at h
            · by_cases hf : e = env.FailedCreated
              · subst hf
                simp [AddGPU, hcs, hpod, hcan, ha, he] at h
              · simp [AddGPU, hcs, hpod, hcan, ha, he, hf] at h
          · cases hb : (mountLoop env pod rs rs w4).1
            · obtain ⟨w5, h5⟩ := mountLoop_not_failed env pod rs rs w4 hb
              exact ⟨pod, rs, w5, w1, w2, w4, hcs, hpod, hcan, ha, h5⟩
            · simp [AddGPU, hcs, hpod, hcan, ha, hb] at h
      · simp [AddGPU, hcs, hpod] at h
      · simp [AddGPU, hcs, hpod] at h
    · simp [AddGPU, hcs] at h
  · rintro ⟨pod, rs, w5, w1, w2, w4, hcs, hpod, hcan, ha, h5⟩
    simp [AddGPU, hcs, hpod, hcan, ha, mountLoop_ok env pod rs rs w4 w5 h5]
  · rintro pod rs w5 ⟨w1, w2, w4, hcs, hpod, hcan, ha, h5⟩
    simp [AddGPU, hcs, hpod, hcan, ha, mountLoop_ok env pod rs rs w4 w5 h5,
      List.filter_append, filter_isMount_mounts, filter_isRelease_mounts,
      Event.isMount, Event.isRelease]

/-! ## RemoveGPU -/

theorem checkLoop_pass {W : Type} (env : Env W) (pod : Pod) (force : Bool)
    (rs : List GPUResource) (acc : List String) (w w4 : W)
    (h : checksPass env pod force rs w = some w4) :
    checkLoop env pod force rs acc w =
      (LoopExit.done, acc ++ rs.map (fun r => r.PodName),
        rs.map (Event.getPodGPUProcesses pod), w4) := by
  induction rs generalizing acc w with
  | nil => simp [checksPass] at h; simp [checkLoop, h]
  | cons g rest ih =>
    rcases hc : env.GetPodGPUProcesses pod g w with ⟨e | p, w1⟩
    · simp [checksPass, hc] at h
    · by_cases hb : (p.isSome && !force) = true
      · simp [checksPass, hc, hb] at h
      · simp only [checksPass, hc, hb] at h
        simp only [checkLoop, hc, hb]
        simp [ih _ w1 h]

theorem checkLoop_busy {W : Type} (env : Env W) (pod : Pod)
    (pre post : List GPUResource) (g : GPUResource) (p : ProcessInfo)
    (acc : List String) (w w4 : W)
    (hpre : checksNoError env pod pre w = some w4)
    (hbusy : (env.GetPodGPUProcesses pod g w4).1 = Except.ok (some p)) :
    (checkLoop env pod false (pre ++ g :: post) acc w).1
        = LoopExit.respond RemoveGPUResult.GPUBusy ∧
    ∃ n, n ≤ pre.length ∧
      (checkLoop env pod false (pre ++ g :: post) acc w).2.2.1 =
        ((pre ++ g :: post).take (n + 1)).map (Event.getPodGPUProcesses pod) := by
  induction pre generalizing acc w with
  | nil =>
    simp [checksNoError] at hpre
    subst hpre
    rcases hc : env.GetPodGPUProcesses pod g w with ⟨r, w1⟩
    rw [hc] at hbusy
    simp only at hbusy
    subst hbusy
    simp [checkLoop, hc]
  | cons a rest ih =>
    rcases hc : env.GetPodGPUProcesses pod a w with ⟨e | q, w1⟩
    · simp [checksNoError, hc] at hpre
    · simp only [checksNoError, hc] at hpre
      cases q with
      | some q1 =>
        refine ⟨by simp [checkLoop, hc], 0, Nat.zero_le _, by simp [checkLoop, hc]⟩
      | none =>
        obtain ⟨h1, n, hn, h2⟩ := ih (acc ++ [a.PodName]) w1 hpre
        refine ⟨by simpa [checkLoop, hc] using h1, n + 1, by simpa using hn, ?_⟩
        simpa [checkLoop, hc] using h2

theorem unmountLoop_ok {W : Type} (env : Env W) (pod : Pod) (force : Bool)
    (rs : List GPUResource) (w w5 : W)
    (h : unmountsOk env pod force rs w = some w5) :
    unmountLoop env pod force rs w =
      (LoopExit.done, rs.map (fun r => Event.unmountGPU pod r force), w5) := by
  induction rs generalizing w with
  | nil => simp [unmountsOk] at h; simp [unmountLoop, h]
  | cons g rest ih =>
    rcases hu : env.UnmountGPU pod g force w with ⟨_ | e, w1⟩
    · simp only [unmountsOk, hu] at h
      simp [unmountLoop, hu, ih w1 h]
    · simp [unmountsOk, hu] at h

theorem unmountLoop_fail {W : Type} (env : Env W) (pod : Pod) (force : Bool)
    (pre post : List GPUResource) (g : GPUResource) (e : Error) (w w5 w6 : W)
    (hpre : unmountsOk env pod force pre w = some w5)
    (hfail : env.UnmountGPU pod g force w5 = (some e, w6)) :
    unmountLoop env pod force (pre ++ g :: post) w =
      (if e = env.GPUBusyText then LoopExit.respond RemoveGPUResult.GPUBusy
        else LoopExit.fail e,
        (pre ++ [g]).map (fun r => Event.unmountGPU pod r force), w6) := by
  induction pre generalizing w with
  | nil =>
    simp [unmountsOk] at hpre
    subst hpre
    by_cases hb : e = env.GPUBusyText <;> simp [unmountLoop, hfail, hb]
  | cons a rest ih =>
    rcases hu : env.UnmountGPU pod a force w with ⟨_ | e1, w1⟩
    · simp only [unmountsOk, hu] at hpre
      simp [unmountLoop, hu, ih w1 hpre]
    · simp [unmountsOk, hu] at hpre

theorem unmountLoop_trace_initial {W : Type} (env : Env W) (pod : Pod) (force : Bool)
    (rs : List GPUResource) (w : W) :
    ∃ n, n ≤ rs.length ∧
      (unmountLoop env pod force rs w).2.1 =
        (rs.take n).map (fun r => Event.unmountGPU pod r force) := by
  induction rs generalizing w with
  | nil => exact ⟨0, Nat.le_refl _, by simp [unmountLoop]⟩
  | cons g rest ih =>
    rcases hu : env.UnmountGPU pod g force w with ⟨_ | e, w1⟩
    · obtain ⟨n, hn, h⟩ := ih w1
      exact ⟨n + 1, by simpa using hn, by simp [unmountLoop, hu, h]⟩
    · refine ⟨1, by simp, ?_⟩
      by_cases hb : e = env.GPUBusyText <;> simp [unmountLoop, hu, hb]

theorem filter_isUnmount_checks (pod : Pod) (rs : List GPUResource) :
    (rs.map (Event.getPodGPUProcesses pod)).filter Event.isUnmount = [] := by
  rw [List.filter_eq_nil_iff]
  intro a ha
  obtain ⟨g, _, rfl⟩ := List.mem_map.1 ha
  simp [Event.isUnmount]

theorem filter_isRelease_checks (pod : Pod) (rs : List GPUResource) :
    (rs.map (Event.getPodGPUProcesses pod)).filter Event.isRelease = [] := by
  rw [List.filter_eq_nil_iff]
  intro a ha
  obtain ⟨g, _, rfl⟩ := List.mem_map.1 ha
  simp [Event.isRelease]

theorem filter_isRelease_unmounts (pod : Pod) (force : Bool) (rs : List GPUResource) :
    (rs.map (fun r => Event.unmountGPU pod r force)).filter Event.isRelease = [] := by
  rw [List.filter_eq_nil_iff]
  intro a ha
  obtain ⟨g, _, rfl⟩ := List.mem_map.1 ha
  simp [Event.isRelease]

/-- C3: with `force = false`, when the resolved list is `pre ++ g :: post`, the
occupancy checker reports no error on `pre` and reports a holding process for
`g`, RemoveGPU answers `GPUBusy` with a nil error; it has made no unmount call
and no placeholder-delete call: after resolution its calls are occupancy checks
on an initial part of the list only. -/
theorem RemoveGPU_busy_precheck {W : Type} (env : Env W) (request : RemoveGPURequest)
    (w0 w1 w2 w3 w4 : W) (pod : Pod) (pre post : List GPUResource) (g : GPUResource)
    (p : ProcessInfo)
    (hcs : env.GetClientSet w0 = (none, w1))
    (hpod : env.GetPod request.Namespace request.PodName w1 = (PodLookup.found pod, w2))
    (hres : env.GetRemoveGPU pod request.Uuids w2 = (Except.ok (pre ++ g :: post), w3))
    (hforce : request.Force = false)
    (hpre : checksNoError env pod pre w3 = some w4)
    (hbusy : (env.GetPodGPUProcesses pod g w4).1 = Except.ok (some p)) :
    (RemoveGPU env request w0).resp = some RemoveGPUResult.GPUBusy ∧
    (RemoveGPU env request w0).err = none ∧
    (RemoveGPU env request w0).trace.filter Event.isUnmount = [] ∧
    (RemoveGPU env request w0).trace.filter Event.isRelease = [] ∧
    ∃ n, n ≤ pre.length ∧
      (RemoveGPU env request w0).trace =
        [Event.getClientSet, Event.getPod request.Namespace request.PodName,
          Event.getRemoveGPU pod request.Uuids]
        ++ ((pre ++ g :: post).take (n + 1)).map (Event.getPodGPUProcesses pod) := by
  obtain ⟨h1, n, hn, h2⟩ := checkLoop_busy env pod pre post g p [] w3 w4 hpre hbusy
  have ht : (RemoveGPU env request w0).trace =
      [Event.getClientSet, Event.getPod request.Namespace request.PodName,
        Event.getRemoveGPU pod request.Uuids]
      ++ ((pre ++ g :: post).take (n + 1)).map (Event.getPodGPUProcesses pod) := by
    simp [RemoveGPU, hcs, hpod, hres, hforce, h1, h2]
  have hr : (RemoveGPU env request w0).resp = some RemoveGPUResult.GPUBusy ∧
      (RemoveGPU env request w0).err = none := by
    simp [RemoveGPU, hcs, hpod, hres, hforce, h1]
  refine ⟨hr.1, hr.2, ?_, ?_, n, hn, ht⟩
  · rw [ht, List.filter_append, filter_isUnmount_checks]
    simp [Event.isUnmount]
  · rw [ht, List.filter_append, filter_isRelease_checks]
    simp [Event.isRelease]

/-- C4 (amended): when the pod is found, the resolved list is non-empty, the
occupancy pre-check passes and every unmount succeeds, RemoveGPU calls
`DeleteSlavePods` once, last, with the placeholder names of the resolved
resources in list order; it answers `Success` with a nil error when that call
reports no failure, and returns an error and no response when it reports one. -/
theorem RemoveGPU_after_unmounts {W : Type} (env : Env W) (request : RemoveGPURequest)
    (w0 w1 w2 w3 w4 w5 : W) (pod : Pod) (rs : List GPUResource)
    (hcs : env.GetClientSet w0 = (none, w1))
    (hpod : env.GetPod request.Namespace request.PodName w1 = (PodLookup.found pod, w2))
    (hres : env.GetRemoveGPU pod request.Uuids w2 = (Except.ok rs, w3))
    (hne : rs ≠ [])
    (hchk : checksPass env pod request.Force rs w3 = some w4)
    (hun : unmountsOk env pod request.Force rs w4 = some w5) :
    (RemoveGPU env request w0).trace =
      [Event.getClientSet, Event.getPod request.Namespace request.PodName,
        Event.getRemoveGPU pod request.Uuids]
      ++ rs.map (Event.getPodGPUProcesses pod)
      ++ rs.map (fun r => Event.unmountGPU pod r request.Force)
      ++ [Event.deleteSlavePods (rs.map (fun r => r.PodName))] ∧
    ((env.DeleteSlavePods (rs.map (fun r => r.PodName)) w5).1 = none →
      (RemoveGPU env request w0).resp = some RemoveGPUResult.Success ∧
      (RemoveGPU env request w0).err = none) ∧
    ((env.DeleteSlavePods (rs.map (fun r => r.PodName)) w5).1 ≠ none →
      (RemoveGPU env request w0).resp = none ∧
      (RemoveGPU env request w0).err ≠ none) := by
  have hc := checkLoop_pass env pod request.Force rs [] w3 w4 hchk
  have hu := unmountLoop_ok env pod request.Force rs w4 w5 hun
  rcases hd : env.DeleteSlavePods (rs.map (fun r => r.PodName)) w5 with ⟨_ | e, w6⟩ <;>
    simp [RemoveGPU, hcs, hpod, hres, hne, hc, hu, hd]

/-- C8: when the occupancy pre-check passes, the unmount calls RemoveGPU makes
are, in order, those of an initial part of the resolved list. If the unmounts
of `pre` succeed and the executor fails on the next resource `g`, no later
resource is unmounted and no placeholder is deleted; RemoveGPU answers
`GPUBusy` with a nil error when the failure is the `GPUBusy` signal, and
returns an error and no response for any other failure. -/
theorem RemoveGPU_unmount_phase {W : Type} (env : Env W) (request : RemoveGPURequest)
    (w0 w1 w2 w3 w4 : W) (pod : Pod) (rs : List GPUResource)
    (hcs : env.GetClientSet w0 = (none, w1))
    (hpod : env.GetPod request.Namespace request.PodName w1 = (PodLookup.found pod, w2))
    (hres : env.GetRemoveGPU pod request.Uuids w2 = (Except.ok rs, w3))
    (hchk : checksPass env pod request.Force rs w3 = some w4) :
    (∃ n, n ≤ rs.length ∧
      (RemoveGPU env request w0).trace.filter Event.isUnmount =
        (rs.take n).map (fun r => Event.unmountGPU pod r request.Force)) ∧
    (∀ (pre post : List GPUResource) (g : GPUResource) (e : Error) (w5 w6 : W),
      rs = pre ++ g :: post →
      unmountsOk env pod request.Force pre w4 = some w5 →
      env.UnmountGPU pod g request.Force w5 = (some e, w6) →
      (RemoveGPU env request w0).trace =
        [Event.getClientSet, Event.getPod request.Namespace request.PodName,
          Event.getRemoveGPU pod request.Uuids]
        ++ rs.map (Event.getPodGPUProcesses pod)
        ++ (pre ++ [g]).map (fun r => Event.unmountGPU pod r request.Force) ∧
      (RemoveGPU env request w0).trace.filter Event.isRelease = [] ∧
      (e = env.GPUBusyText →
        (RemoveGPU env request w0).resp = some RemoveGPUResult.GPUBusy ∧
        (RemoveGPU env request w0).err = none) ∧
      (e ≠ env.GPUBusyText →
        (RemoveGPU env request w0).resp = none ∧
        (RemoveGPU env request w0).err ≠ none)) := by
  have hc := checkLoop_pass env pod request.Force rs [] w3 w4 hchk
  constructor
  · by_cases hne : rs = []
    · subst hne
      exact ⟨0, Nat.le_refl _, by simp [RemoveGPU, hcs, hpod, hres, Event.isUnmount]⟩
    · obtain ⟨n, hn, ht⟩ := unmountLoop_trace_initial env pod request.Force rs w4
      refine ⟨n, hn, ?_⟩
      have hfc := filter_isUnmount_checks pod rs
      have hall : ∀ a ∈ List.take n (List.map (fun r => Event.unmountGPU pod r request.Force) rs),
          Event.isUnmount a = true := by
        intro a ha
        obtain ⟨g, _, rfl⟩ := List.mem_map.1 (List.mem_of_mem_take ha)
        rfl
      rcases hx : (unmountLoop env pod request.Force rs w4).1 with _ | r | e
      · rcases hd : env.DeleteSlavePods (List.map (fun r => r.PodName) rs)
            (unmountLoop env pod request.Force rs w4).2.2 with ⟨_ | e, w6⟩ <;>
          simpa [RemoveGPU, hcs, hpod, hres, hne, hc, hx, hd, ht, List.filter_append,
            hfc, Event.isUnmount] using hall
      · simpa [RemoveGPU, hcs, hpod, hres, hne, hc, hx, ht, List.filter_append,
          hfc, Event.isUnmount] using hall
      · simpa [RemoveGPU, hcs, hpod, hres, hne, hc, hx, ht, List.filter_append,
          hfc, Event.isUnmount] using hall
  · intro pre post g e w5 w6 hrs hun hfail
    have hne : rs ≠ [] := by rw [hrs]; simp
    have hu := unmountLoop_fail env pod request.Force pre post g e w4 w5 w6 hun hfail
    rw [← hrs] at hu
    have hfu := filter_isRelease_unmounts pod request.Force (pre ++ [g])
    have hfc := filter_isRelease_checks pod rs
    by_cases hb : e = env.GPUBusyText
    · simp only [hb, if_true] at hu
      simp [RemoveGPU, hcs, hpod, hres, hne, hc, hu, hb, List.filter_append, hfu, hfc,
        Event.isRelease]
    · simp only [hb, if_false] at hu
      simp [RemoveGPU, hcs, hpod, hres, hne, hc, hu, hb, List.filter_append, hfu, hfc,
        Event.isRelease]

/-- C5 (amended): every error AddGPU returns is the generic service-failure
error, except on the one path where the compatibility check rejects the
request, which returns the `FailedCreated` constant. A failure to obtain the
client set, a pod lookup failure other than not-found, an allocator failure
other than `InsufficientGPU` and a mount failure all return the generic error,
whatever text the collaborator produced. The error RemoveGPU returns when the
client set cannot be obtained or the pod lookup fails (other than not-found)
is the generic service-failure error too. -/
theorem handler_errors_fixed {W : Type} (env : Env W) (add : AddGPURequest)
    (remove : RemoveGPURequest) (w0 : W) :
    (∀ e, (AddGPU env add w0).err = some e →
      e = serviceInternalError ∨
      (e = env.FailedCreated ∧ ∃ w1 pod w2,
        env.GetClientSet w0 = (none, w1) ∧
        env.GetPod add.Namespace add.PodName w1 = (PodLookup.found pod, w2) ∧
        env.CanMount (env.GetMountType pod w2).1 add = false)) ∧
    (∀ e w1, env.GetClientSet w0 = (some e, w1) →
      (AddGPU env add w0).err = some serviceInternalError ∧
      (RemoveGPU env remove w0).err = some serviceInternalError) ∧
    (∀ e w1 w2, env.GetClientSet w0 = (none, w1) →
      env.GetPod add.Namespace add.PodName w1 = (PodLookup.failed e, w2) →
      (AddGPU env add w0).err = some serviceInternalError) ∧
    (∀ e w1 w2, env.GetClientSet w0 = (none, w1) →
      env.GetPod remove.Namespace remove.PodName w1 = (PodLookup.failed e, w2) →
      (RemoveGPU env remove w0).err = some serviceInternalError) ∧
    (∀ w1 pod w2, env.GetClientSet w0 = (none, w1) →
      env.GetPod add.Namespace add.PodName w1 = (PodLookup.found pod, w2) →
      env.CanMount (env.GetMountType pod w2).1 add = false →
      (AddGPU env add w0).err = some env.FailedCreated) ∧
    (∀ w1 pod w2 e w4, env.GetClientSet w0 = (none, w1) →
      env.GetPod add.Namespace add.PodName w1 = (PodLookup.found pod, w2) →
      env.CanMount (env.GetMountType pod w2).1 add = true →
      env.GetAvailableGPU pod add.GpuNum
        (if add.IsEntireMount then add.GpuNum else 1) (env.GetMountType pod w2).2
        = (Except.error e, w4) →
      e ≠ env.InsufficientGPU →
      (AddGPU env add w0).err = some serviceInternalError) ∧
    (∀ w1 pod w2 rs w4, env.GetClientSet w0 = (none, w1) →
      env.GetPod add.Namespace add.PodName w1 = (PodLookup.found pod, w2) →
      env.CanMount (env.GetMountType pod w2).1 add = true →
      env.GetAvailableGPU pod add.GpuNum
        (if add.IsEntireMount then add.GpuNum else 1) (env.GetMountType pod w2).2
        = (Except.ok rs, w4) →
      mountsOk env pod rs w4 = none →
      (AddGPU env add w0).err = some serviceInternalError) := by
  refine ⟨?_, ?_, ?_, ?_, ?_, ?_, ?_⟩
  · intro e h
    rcases hcs : env.GetClientSet w0 with ⟨_ | e0, w1⟩
    · rcases hpod : env.GetPod add.Namespace add.PodName w1 with ⟨pod | e1 | e1, w2⟩
      · cases hcan : env.CanMount (env.GetMountType pod w2).1 add
        · simp [AddGPU, hcs, hpod, hcan] at h
          exact Or.inr ⟨h.symm, w1, pod, w2, rfl, hpod, hcan⟩
        · rcases ha : env.GetAvailableGPU pod add.GpuNum
            (if add.IsEntireMount then add.GpuNum else 1) (env.GetMountType pod w2).2
            with ⟨e2 | rs, w4⟩
          · by_cases he : e2 = env.InsufficientGPU
            · simp [AddGPU, hcs, hpod, hcan, ha, he] at h
            · by_cases hf : e2 = env.FailedCreated
              · subst hf
                simp [AddGPU, hcs, hpod, hcan, ha, he] at h
                exact Or.inl h.symm
              · simp [AddGPU, hcs, hpod, hcan, ha, he, hf] at h
                exact Or.inl h.symm
          · cases hb : (mountLoop env pod rs rs w4).1
            · simp [AddGPU, hcs, hpod, hcan, ha, hb] at h
            · simp [AddGPU, hcs, hpod, hcan, ha, hb] at h
              exact Or.inl h.symm
      · simp [AddGPU, hcs, hpod] at h
      · simp [AddGPU, hcs, hpod] at h
        exact Or.inl h.symm
    · simp [AddGPU, hcs] at h
      exact Or.inl h.symm
  · intro e w1 hcs
    simp [AddGPU, RemoveGPU, hcs]
  · intro e w1 w2 hcs hpod
    simp [AddGPU, hcs, hpod]
  · intro e w1 w2 hcs hpod
    simp [RemoveGPU, hcs, hpod]
  · intro w1 pod w2 hcs hpod hcan
    simp [AddGPU, hcs, hpod, hcan]
  · intro w1 pod w2 e w4 hcs hpod hcan ha he
    by_cases hf : e = env.FailedCreated
    · subst hf
      simp [AddGPU, hcs, hpod, hcan, ha, he]
    · simp [AddGPU, hcs, hpod, hcan, ha, he, hf]
  · intro w1 pod w2 rs w4 hcs hpod hcan ha hm
    simp [AddGPU, hcs, hpod, hcan, ha, mountLoop_failed env pod rs rs w4 hm]

/-- C1 (witness): three devices are reserved, the mount of the second one fails
and the delete of the first placeholder fails too; all three deletes are issued. -/
theorem AddGPU_rollback_on_mount_failure_witness :
    (AddGPU (fixtureEnv brokenB) addThree emptyCluster).resp = none ∧
    (AddGPU (fixtureEnv brokenB) addThree emptyCluster).err = some serviceInternalError ∧
    (AddGPU (fixtureEnv brokenB) addThree emptyCluster).trace =
      [Event.getClientSet, Event.getPod "ns1" "p1", Event.getMountType podP1,
        Event.getAvailableGPU podP1 3 1]
      ++ [Event.mountGPU podP1 gpuA, Event.mountGPU podP1 gpuB]
      ++ [Event.deletePod "gpu-pool" "slave-a", Event.deletePod "gpu-pool" "slave-b",
          Event.deletePod "gpu-pool" "slave-c"] ∧
    (AddGPU (fixtureEnv brokenB) addThree emptyCluster).world = ⟨[gpuA], ["slave-a"]⟩ :=
  AddGPU_rollback_on_mount_failure (fixtureEnv brokenB) addThree emptyCluster emptyCluster
    emptyCluster ⟨[], ["slave-a", "slave-b", "slave-c"]⟩
    ⟨[gpuA], ["slave-a", "slave-b", "slave-c"]⟩ ⟨[gpuA], ["slave-a", "slave-b", "slave-c"]⟩
    podP1 [gpuA] [gpuC] gpuB "device node missing" rfl rfl rfl rfl rfl rfl

/-- C2: the scenario of the specification. `p1` has nothing mounted, two shared
devices are requested, the mount of `gpu-a` succeeds and the mount of `gpu-b`
fails. AddGPU returns the internal error and both placeholders are deleted,
but `gpu-a` is still mounted in `p1`: the mounted devices after the failed call
are not those before it. -/
theorem AddGPU_failed_batch_keeps_earlier_mount :
    emptyCluster.mounted = [] ∧
    (AddGPU (fixtureEnv missingNodeB) addTwo emptyCluster).resp = none ∧
    (AddGPU (fixtureEnv missingNodeB) addTwo emptyCluster).err = some serviceInternalError ∧
    (AddGPU (fixtureEnv missingNodeB) addTwo emptyCluster).trace
      = [Event.getClientSet, Event.getPod "ns1" "p1", Event.getMountType podP1,
          Event.getAvailableGPU podP1 2 1,
          Event.mountGPU podP1 gpuA, Event.mountGPU podP1 gpuB,
          Event.deletePod "gpu-pool" "slave-a", Event.deletePod "gpu-pool" "slave-b"] ∧
    (AddGPU (fixtureEnv missingNodeB) addTwo emptyCluster).world.placeholders = [] ∧
    (AddGPU (fixtureEnv missingNodeB) addTwo emptyCluster).world.mounted = [gpuA] := by
  refine ⟨rfl, rfl, rfl, rfl, rfl, rfl⟩

theorem mountsOk_mounted {W : Type} (env : Env W) (mountedOf : W → List GPUResource)
    (hext : ∀ pod g w w1, env.MountGPU pod g w = (none, w1) →
      mountedOf w1 = mountedOf w ++ [g])
    (pod : Pod) (gs : List GPUResource) (w w5 : W)
    (h : mountsOk env pod gs w = some w5) :
    mountedOf w5 = mountedOf w ++ gs := by
  induction gs generalizing w with
  | nil => simp [mountsOk] at h; simp [h]
  | cons g rest ih =>
    rcases hm : env.MountGPU pod g w with ⟨_ | e, w1⟩
    · simp only [mountsOk, hm] at h
      rw [ih w1 h, hext pod g w w1 hm]
      simp
    · simp [mountsOk, hm] at h

theorem deletesWorld_mounted {W : Type} (env : Env W) (mountedOf : W → List GPUResource)
    (hdel : ∀ ns name w, mountedOf (env.DeletePod ns name w).2 = mountedOf w)
    (gs : List GPUResource) (w : W) :
    mountedOf (deletesWorld env gs w) = mountedOf w := by
  induction gs generalizing w with
  | nil => rfl
  | cons g rest ih => simp [deletesWorld, ih, hdel]

/-- Whatever the collaborators are, if a successful `MountGPU` extends the
mounted devices of the pod, a failed one leaves them as they are and the
placeholder delete does not touch them, then after an AddGPU whose mount of
`g` is the first to fail the devices `pre` mounted before `g` are still
mounted. -/
theorem AddGPU_failure_leaves_mounts {W : Type} (env : Env W)
    (mountedOf : W → List GPUResource) (request : AddGPURequest)
    (w0 w1 w2 w4 w5 w6 : W) (pod : Pod) (pre post : List GPUResource) (g : GPUResource)
    (e : Error)
    (hext : ∀ pod g w w1, env.MountGPU pod g w = (none, w1) →
      mountedOf w1 = mountedOf w ++ [g])
    (hkeep : ∀ pod g w e w1, env.MountGPU pod g w = (some e, w1) →
      mountedOf w1 = mountedOf w)
    (hdel : ∀ ns name w, mountedOf (env.DeletePod ns name w).2 = mountedOf w)
    (hcs : env.GetClientSet w0 = (none, w1))
    (hpod : env.GetPod request.Namespace request.PodName w1 = (PodLookup.found pod, w2))
    (hcan : env.CanMount (env.GetMountType pod w2).1 request = true)
    (halloc : env.GetAvailableGPU pod request.GpuNum
        (if request.IsEntireMount then request.GpuNum else 1) (env.GetMountType pod w2).2
        = (Except.ok (pre ++ g :: post), w4))
    (hpre : mountsOk env pod pre w4 = some w5)
    (hfail : env.MountGPU pod g w5 = (some e, w6)) :
    mountedOf (AddGPU env request w0).world = mountedOf w4 ++ pre := by
  have hl := mountLoop_fail env pod (pre ++ g :: post) pre post g e w4 w5 w6 hpre hfail
  have hw : (AddGPU env request w0).world = deletesWorld env (pre ++ g :: post) w6 := by
    simp only [AddGPU, hcs, hpod, hcan, halloc, hl]
    simp
  rw [hw, deletesWorld_mounted env mountedOf hdel, hkeep pod g w5 e w6 hfail,
    mountsOk_mounted env mountedOf hext pod pre w4 w5 hpre]

/-- The concrete cluster meets the three assumptions of
`AddGPU_failure_leaves_mounts`; in the scenario of the specification it
gives `gpu-a` as the device left mounted. -/
theorem AddGPU_failure_leaves_mounts_scenario :
    (AddGPU (fixtureEnv missingNodeB) addTwo emptyCluster).world.mounted = [] ++ [gpuA] := by
  refine AddGPU_failure_leaves_mounts (fixtureEnv missingNodeB) Cluster.mounted addTwo
    emptyCluster emptyCluster emptyCluster twoReserved ⟨[gpuA], ["slave-a", "slave-b"]⟩
    ⟨[gpuA], ["slave-a", "slave-b"]⟩ podP1 [gpuA] [] gpuB "device node missing"
    ?_ ?_ ?_ rfl rfl rfl rfl rfl rfl
  · intro pod g w w1 h
    simp only [fixtureEnv] at h
    split at h <;> simp at h
    rw [← h]
  · intro pod g w e w1 h
    simp only [fixtureEnv] at h
    split at h <;> simp at h
    rw [← h.2]
  · intro ns name w
    simp only [fixtureEnv]
    split <;> rfl

/-- C3 (witness): `gpu-b`, the second of three resolved devices, is held by a
process and `force` is false. -/
theorem RemoveGPU_busy_precheck_witness :
    (RemoveGPU (fixtureEnv busyB) removeAll fullCluster).resp
      = some RemoveGPUResult.GPUBusy ∧
    (RemoveGPU (fixtureEnv busyB) removeAll fullCluster).err = none ∧
    (RemoveGPU (fixtureEnv busyB) removeAll fullCluster).trace.filter Event.isUnmount = [] ∧
    (RemoveGPU (fixtureEnv busyB) removeAll fullCluster).trace.filter Event.isRelease = [] :=
  have h := RemoveGPU_busy_precheck (fixtureEnv busyB) removeAll fullCluster fullCluster
    fullCluster fullCluster fullCluster podP1 [gpuA] [gpuC] gpuB [4242] rfl rfl rfl rfl rfl rfl
  ⟨h.1, h.2.1, h.2.2.1, h.2.2.2.1⟩

/-- C4 (counterexample): `p1` is found, `gpu-a` resolves, the pre-check passes
and the unmount succeeds, but `DeleteSlavePods` fails: RemoveGPU returns that
failure and no response, not `Success`. -/
theorem RemoveGPU_delete_failure_returned :
    (fixtureEnv deleteFails).GetPod "ns1" "p1" fullCluster
      = (PodLookup.found podP1, fullCluster) ∧
    (fixtureEnv deleteFails).GetRemoveGPU podP1 ["gpu-a"] fullCluster
      = (Except.ok [gpuA], fullCluster) ∧
    checksPass (fixtureEnv deleteFails) podP1 false [gpuA] fullCluster = some fullCluster ∧
    unmountsOk (fixtureEnv deleteFails) podP1 false [gpuA] fullCluster = some afterUnmountA ∧
    (RemoveGPU (fixtureEnv deleteFails) removeA fullCluster).resp = none ∧
    (RemoveGPU (fixtureEnv deleteFails) removeA fullCluster).err
      = some "pods slave-a is forbidden" ∧
    ¬ ((RemoveGPU (fixtureEnv deleteFails) removeA fullCluster).resp
        = some RemoveGPUResult.Success ∧
      (RemoveGPU (fixtureEnv deleteFails) removeA fullCluster).err = none) := by
  refine ⟨rfl, rfl, rfl, rfl, rfl, rfl, ?_⟩
  rintro ⟨h, _⟩
  exact absurd h (by decide)

/-- C4 (witness): `gpu-a` is removed from `p1` on the healthy cluster. -/
theorem RemoveGPU_after_unmounts_witness :
    (RemoveGPU (fixtureEnv healthy) removeA fullCluster).trace =
      [Event.getClientSet, Event.getPod "ns1" "p1", Event.getRemoveGPU podP1 ["gpu-a"],
        Event.getPodGPUProcesses podP1 gpuA, Event.unmountGPU podP1 gpuA false,
        Event.deleteSlavePods ["slave-a"]] ∧
    (RemoveGPU (fixtureEnv healthy) removeA fullCluster).resp
      = some RemoveGPUResult.Success ∧
    (RemoveGPU (fixtureEnv healthy) removeA fullCluster).err = none :=
  have h := RemoveGPU_after_unmounts (fixtureEnv healthy) removeA fullCluster fullCluster
    fullCluster fullCluster fullCluster afterUnmountA podP1 [gpuA] rfl rfl rfl
    (List.cons_ne_nil _ _) rfl rfl
  ⟨h.1, h.2.1 rfl⟩

/-- C5 (counterexample): two runs of RemoveGPU that differ only in the text of
the failure of UUID resolution return two different errors, each the text of
the collaborator and not the generic service-failure error; and AddGPU on a
pod that holds an entire-device mount returns, for a shared request, the
`FailedCreated` text, which is not the generic error either. -/
theorem handler_error_not_generic :
    (RemoveGPU (fixtureEnv (resolveFails "etcdserver: request timed out")) removeA
      fullCluster).err = some "etcdserver: request timed out" ∧
    (RemoveGPU (fixtureEnv (resolveFails "context deadline exceeded")) removeA
      fullCluster).err = some "context deadline exceeded" ∧
    (RemoveGPU (fixtureEnv (resolveFails "etcdserver: request timed out")) removeA
      fullCluster).err ≠
    (RemoveGPU (fixtureEnv (resolveFails "context deadline exceeded")) removeA
      fullCluster).err ∧
    (RemoveGPU (fixtureEnv (resolveFails "etcdserver: request timed out")) removeA
      fullCluster).err ≠ some serviceInternalError ∧
    (AddGPU (fixtureEnv wholeMode) addTwo emptyCluster).err = some "FailedCreated" ∧
    (AddGPU (fixtureEnv wholeMode) addTwo emptyCluster).err ≠ some serviceInternalError := by
  refine ⟨rfl, rfl, by decide, by decide, rfl, by decide⟩

/-- C5 (witness): on concrete clusters, AddGPU and RemoveGPU without a cluster
client and with a failing pod lookup, AddGPU on an incompatible pod, with a
failing allocator and with a failing mount. -/
theorem handler_errors_fixed_witness :
    ((AddGPU (fixtureEnv noConnection) addTwo emptyCluster).err
        = some serviceInternalError ∧
      (RemoveGPU (fixtureEnv noConnection) removeA emptyCluster).err
        = some serviceInternalError) ∧
    (AddGPU (fixtureEnv lookupFails) addTwo emptyCluster).err
      = some serviceInternalError ∧
    (RemoveGPU (fixtureEnv lookupFails) removeA emptyCluster).err
      = some serviceInternalError ∧
    (AddGPU (fixtureEnv wholeMode) addTwo emptyCluster).err
      = some (fixtureEnv wholeMode).FailedCreated ∧
    (AddGPU (fixtureEnv allocFails) addTwo emptyCluster).err
      = some serviceInternalError ∧
    (AddGPU (fixtureEnv missingNodeB) addTwo emptyCluster).err
      = some serviceInternalError ∧
    (serviceInternalError = serviceInternalError ∨
      (serviceInternalError = (fixtureEnv missingNodeB).FailedCreated ∧ ∃ w1 pod w2,
        (fixtureEnv missingNodeB).GetClientSet emptyCluster = (none, w1) ∧
        (fixtureEnv missingNodeB).GetPod addTwo.Namespace addTwo.PodName w1
          = (PodLookup.found pod, w2) ∧
        (fixtureEnv missingNodeB).CanMount
          ((fixtureEnv missingNodeB).GetMountType pod w2).1 addTwo = false)) :=
  ⟨(handler_errors_fixed (fixtureEnv noConnection) addTwo removeA emptyCluster).2.1
      "unable to load in-cluster configuration" emptyCluster rfl,
    (handler_errors_fixed (fixtureEnv lookupFails) addTwo removeA emptyCluster).2.2.1
      "etcdserver: request timed out" emptyCluster emptyCluster rfl rfl,
    (handler_errors_fixed (fixtureEnv lookupFails) addTwo removeA emptyCluster).2.2.2.1
      "etcdserver: request timed out" emptyCluster emptyCluster rfl rfl,
    (handler_errors_fixed (fixtureEnv wholeMode) addTwo removeA emptyCluster).2.2.2.2.1
      emptyCluster podP1 emptyCluster rfl rfl rfl,
    (handler_errors_fixed (fixtureEnv allocFails) addTwo removeA emptyCluster).2.2.2.2.2.1
      emptyCluster podP1 emptyCluster "FailedCreated" emptyCluster rfl rfl rfl rfl
      (by decide),
    (handler_errors_fixed (fixtureEnv missingNodeB) addTwo removeA emptyCluster).2.2.2.2.2.2
      emptyCluster podP1 emptyCluster [gpuA, gpuB] twoReserved rfl rfl rfl rfl rfl,
    (handler_errors_fixed (fixtureEnv missingNodeB) addTwo removeA emptyCluster).1
      serviceInternalError rfl⟩

/-- C6 (witness): a shared request on a pod that holds an entire-device mount. -/
theorem AddGPU_incompatible_rejected_witness :
    (AddGPU (fixtureEnv wholeMode) addTwo emptyCluster).resp = none ∧
    (AddGPU (fixtureEnv wholeMode) addTwo emptyCluster).err = some "FailedCreated" ∧
    (AddGPU (fixtureEnv wholeMode) addTwo emptyCluster).trace =
      [Event.getClientSet, Event.getPod "ns1" "p1", Event.getMountType podP1] ∧
    (AddGPU (fixtureEnv wholeMode) addTwo emptyCluster).trace.filter Event.isAlloc = [] ∧
    (AddGPU (fixtureEnv wholeMode) addTwo emptyCluster).trace.filter Event.isMount = [] ∧
    (AddGPU (fixtureEnv wholeMode) addTwo emptyCluster).trace.filter Event.isRelease = [] :=
  AddGPU_incompatible_rejected (fixtureEnv wholeMode) addTwo emptyCluster emptyCluster
    emptyCluster podP1 rfl rfl rfl

/-- C7 (witness): five devices are requested where three are free, and two are
requested where placeholder creation fails. -/
theorem AddGPU_allocator_failure_witness :
    ((AddGPU (fixtureEnv healthy) addFive emptyCluster).resp
        = some AddGPUResult.InsufficientGPU ∧
      (AddGPU (fixtureEnv healthy) addFive emptyCluster).err = none) ∧
    ((AddGPU (fixtureEnv allocFails) addTwo emptyCluster).resp = none ∧
      (AddGPU (fixtureEnv allocFails) addTwo emptyCluster).err
        = some serviceInternalError) ∧
    (AddGPU (fixtureEnv allocFails) addTwo emptyCluster).trace =
      [Event.getClientSet, Event.getPod "ns1" "p1", Event.getMountType podP1,
        Event.getAvailableGPU podP1 2 1] :=
  have h1 := AddGPU_allocator_failure (fixtureEnv healthy) addFive emptyCluster emptyCluster
    emptyCluster emptyCluster podP1 "InsufficientGPU" rfl rfl rfl rfl
  have h2 := AddGPU_allocator_failure (fixtureEnv allocFails) addTwo emptyCluster emptyCluster
    emptyCluster emptyCluster podP1 "FailedCreated" rfl rfl rfl rfl
  ⟨h1.1 rfl, h2.2.1 (by decide), h2.2.2.1⟩

/-- C8 (witness): the unmount of `gpu-b`, the second of three devices, signals
`GPUBusy` on one cluster and fails for another reason on the other. -/
theorem RemoveGPU_unmount_phase_witness :
    ((RemoveGPU (fixtureEnv racingB) removeAll fullCluster).resp
        = some RemoveGPUResult.GPUBusy ∧
      (RemoveGPU (fixtureEnv racingB) removeAll fullCluster).err = none) ∧
    (RemoveGPU (fixtureEnv racingB) removeAll fullCluster).trace =
      [Event.getClientSet, Event.getPod "ns1" "p1",
        Event.getRemoveGPU podP1 ["gpu-a", "gpu-b", "gpu-c"],
        Event.getPodGPUProcesses podP1 gpuA, Event.getPodGPUProcesses podP1 gpuB,
        Event.getPodGPUProcesses podP1 gpuC,
        Event.unmountGPU podP1 gpuA false, Event.unmountGPU podP1 gpuB false] ∧
    ((RemoveGPU (fixtureEnv stuckB) removeAll fullCluster).resp = none ∧
      (RemoveGPU (fixtureEnv stuckB) removeAll fullCluster).err ≠ none) ∧
    (RemoveGPU (fixtureEnv stuckB) removeAll fullCluster).trace.filter Event.isRelease = [] :=
  have h1 := (RemoveGPU_unmount_phase (fixtureEnv racingB) removeAll fullCluster fullCluster
    fullCluster fullCluster fullCluster podP1 [gpuA, gpuB, gpuC] rfl rfl rfl rfl).2
    [gpuA] [gpuC] gpuB "GPUBusy" afterUnmountA afterUnmountA rfl rfl rfl
  have h2 := (RemoveGPU_unmount_phase (fixtureEnv stuckB) removeAll fullCluster fullCluster
    fullCluster fullCluster fullCluster podP1 [gpuA, gpuB, gpuC] rfl rfl rfl rfl).2
    [gpuA] [gpuC] gpuB "umount: target is busy" afterUnmountA afterUnmountA rfl rfl rfl
  ⟨h1.2.2.1 rfl, h1.1, h2.2.2.2 (by decide), h2.2.1⟩

/-- C9 (witness): two shared devices are mounted into `p1` on the healthy cluster. -/
theorem AddGPU_success_iff_witness :
    AddSucceeds (fixtureEnv healthy) addTwo emptyCluster podP1 [gpuA, gpuB]
      ⟨[gpuA, gpuB], ["slave-a", "slave-b"]⟩ ∧
    (AddGPU (fixtureEnv healthy) addTwo emptyCluster).resp = some AddGPUResult.Success ∧
    (AddGPU (fixtureEnv healthy) addTwo emptyCluster).err = none ∧
    (AddGPU (fixtureEnv healthy) addTwo emptyCluster).trace.filter Event.isMount =
      [Event.mountGPU podP1 gpuA, Event.mountGPU podP1 gpuB] ∧
    (AddGPU (fixtureEnv healthy) addTwo emptyCluster).trace.filter Event.isRelease = [] :=
  have hs : AddSucceeds (fixtureEnv healthy) addTwo emptyCluster podP1 [gpuA, gpuB]
      ⟨[gpuA, gpuB], ["slave-a", "slave-b"]⟩ :=
    ⟨emptyCluster, emptyCluster, twoReserved, rfl, rfl, rfl, rfl, rfl⟩
  have h := AddGPU_success_iff (fixtureEnv healthy) addTwo emptyCluster
  have h2 := h.2 podP1 [gpuA, gpuB] ⟨[gpuA, gpuB], ["slave-a", "slave-b"]⟩ hs
  ⟨hs, h.1.2 ⟨podP1, [gpuA, gpuB], ⟨[gpuA, gpuB], ["slave-a", "slave-b"]⟩, hs⟩,
    h2.1, h2.2.1, h2.2.2.1⟩

/-- C10 (witness): a shared request of 2 asks for 2 devices, 1 per placeholder,
and an entire-mount request of 2 asks for 2 devices, 2 per placeholder; the
handler goes on with the allocator's answer: an error when 5 are asked of 3,
two successful mounts, and a mount that fails on the second device. -/
theorem AddGPU_allocator_call_witness :
    (AddGPU (fixtureEnv healthy) addTwo emptyCluster).trace.filter Event.isAlloc =
      [Event.getAvailableGPU podP1 2 1] ∧
    (AddGPU (fixtureEnv healthy) addTwoEntire emptyCluster).trace.filter Event.isAlloc =
      [Event.getAvailableGPU podP1 2 2] ∧
    ((AddGPU (fixtureEnv healthy) addFive emptyCluster).world = emptyCluster ∧
      (AddGPU (fixtureEnv healthy) addFive emptyCluster).resp
        = some AddGPUResult.InsufficientGPU) ∧
    ((AddGPU (fixtureEnv healthy) addTwo emptyCluster).world
        = ⟨[gpuA, gpuB], ["slave-a", "slave-b"]⟩ ∧
      (AddGPU (fixtureEnv healthy) addTwo emptyCluster).trace =
        [Event.getClientSet, Event.getPod "ns1" "p1", Event.getMountType podP1,
          Event.getAvailableGPU podP1 2 1, Event.mountGPU podP1 gpuA,
          Event.mountGPU podP1 gpuB]) ∧
    ((AddGPU (fixtureEnv missingNodeB) addTwo emptyCluster).world = ⟨[gpuA], []⟩ ∧
      (AddGPU (fixtureEnv missingNodeB) addTwo emptyCluster).err
        = some serviceInternalError) :=
  have h1 := AddGPU_allocator_call (fixtureEnv healthy) addTwo emptyCluster emptyCluster
    emptyCluster podP1 rfl rfl rfl
  have h2 := AddGPU_allocator_call (fixtureEnv healthy) addTwoEntire emptyCluster emptyCluster
    emptyCluster podP1 rfl rfl rfl
  have h3 := (AddGPU_allocator_call (fixtureEnv healthy) addFive emptyCluster emptyCluster
    emptyCluster podP1 rfl rfl rfl).2.1 "InsufficientGPU" emptyCluster rfl
  have h4 := h1.2.2.1 [gpuA, gpuB] twoReserved ⟨[gpuA, gpuB], ["slave-a", "slave-b"]⟩ rfl rfl
  have h5 := (AddGPU_allocator_call (fixtureEnv missingNodeB) addTwo emptyCluster emptyCluster
    emptyCluster podP1 rfl rfl rfl).2.2.2 [gpuA] [] gpuB "device node missing" twoReserved
    ⟨[gpuA], ["slave-a", "slave-b"]⟩ ⟨[gpuA], ["slave-a", "slave-b"]⟩ rfl rfl rfl
  ⟨h1.1, h2.1, ⟨h3.1, h3.2.2.1⟩, ⟨h4.1, h4.2.1⟩, ⟨h5.1, h5.2.2.2⟩⟩

end GPUMounter
